import Mathlib

/-!
Shallow embedding of the reddit-mcp core (src/reddit-client.ts, src/config.ts,
and the search_posts dispatch in src/index.ts) in Lean 4, together with proofs
of the specified properties.

Conventions of the embedding:
* JavaScript `string | null | undefined` values are modelled as `Option String`;
  JavaScript truthiness of such a value (`if (x)`) is `isTruthyOpt`
  (absent or the empty string are falsy, every other string truthy).
* Times are integers in milliseconds (the unit of `Date.now()`).
* A network exchange is modelled by passing the response the remote service
  would return as an explicit argument; the list of token-endpoint calls a
  step performs is returned explicitly (each element is the form-encoded body
  of one POST to the token endpoint, as a list of key-value pairs).
* Thrown JavaScript errors are modelled with `Option`/`Except` error values.
-/

/-- JS truthiness of a `string | null | undefined` value:
`null`/`undefined` and `""` are falsy, every other string truthy. -/
def isTruthyOpt : Option String → Bool
  | some s => s ≠ ""
  | none => false

/-- The configuration record (src/config.ts `ConfigSchema`). -/
structure Config where
  clientId : String
  clientSecret : String
  userAgent : String
  username : Option String
  password : Option String
  refreshToken : Option String
  accessToken : Option String
deriving Repr, DecidableEq

/-- The mutable session state of `RedditClient`: the cached bearer token
(`accessToken`, `string | null`) and its expiry timestamp in ms
(`tokenExpiry`, initialised to `0`). -/
structure ClientState where
  accessToken : Option String
  tokenExpiry : Int
deriving Repr, DecidableEq

/-- Models `config.accessToken || null` in the `RedditClient` constructor:
a falsy value (absent or empty string) becomes `null`. -/
def jsOrNull (o : Option String) : Option String :=
  if isTruthyOpt o then o else none

/-- Models the `RedditClient` constructor: seeds `accessToken` from the
configuration (`config.accessToken || null`) and leaves the field
initialiser `tokenExpiry = 0` in place. -/
def clientInit (cfg : Config) : ClientState :=
  { accessToken := jsOrNull cfg.accessToken, tokenExpiry := 0 }

/-- The guard of `authenticate`:
`if (this.accessToken && Date.now() < this.tokenExpiry) return;`.
The cached token is reused exactly when this is `true`. -/
def tokenIsValid (st : ClientState) (now : Int) : Bool :=
  isTruthyOpt st.accessToken && decide (now < st.tokenExpiry)

/-- The form-encoded body `authenticate` builds for the token exchange,
selected by the if/else chain over the configured credentials
(refresh token first, then username+password, then client credentials). -/
def authBody (cfg : Config) : List (String × String) :=
  if isTruthyOpt cfg.refreshToken then
    [("grant_type", "refresh_token"),
     ("refresh_token", cfg.refreshToken.getD "")]
  else if isTruthyOpt cfg.username && isTruthyOpt cfg.password then
    [("grant_type", "password"),
     ("username", cfg.username.getD ""),
     ("password", cfg.password.getD "")]
  else
    [("grant_type", "client_credentials")]

/-- The response of the token endpoint to one exchange, as `authenticate`
reads it: `ok`/`status`/`statusText` from the HTTP layer, and the parsed
JSON fields `access_token` and `expires_in` (seconds). -/
structure TokenResponse where
  ok : Bool
  status : Nat
  statusText : String
  access_token : String
  expires_in : Int
deriving Repr, DecidableEq

/-- Result of one call to `authenticate`: the session state afterwards, the
token-endpoint calls performed (form bodies, in order), and the
`Authentication failed` error if one was thrown (status, statusText). -/
structure AuthOutcome where
  state : ClientState
  tokenCalls : List (List (String × String))
  error : Option (Nat × String)
deriving Repr, DecidableEq

/-- Models `RedditClient.authenticate` at time `now`, with `resp` the
response the token endpoint would give to an exchange. If the cached token
is truthy and unexpired it is reused with no network call; otherwise one
POST with body `authBody cfg` is made; a non-ok response throws and leaves
the session state untouched, an ok response caches the new token with
`tokenExpiry = now + expires_in * 1000 - 60000` (refresh one minute early). -/
def authenticate (cfg : Config) (st : ClientState) (now : Int)
    (resp : TokenResponse) : AuthOutcome :=
  if tokenIsValid st now then
    { state := st, tokenCalls := [], error := none }
  else if resp.ok then
    { state := { accessToken := some resp.access_token,
                 tokenExpiry := now + resp.expires_in * 1000 - 60000 },
      tokenCalls := [authBody cfg],
      error := none }
  else
    { state := st, tokenCalls := [authBody cfg],
      error := some (resp.status, resp.statusText) }

/-- A response of the content-service API host as `makeRequest` reads it;
`json` is the value `response.json()` would produce, kept polymorphic
because `makeRequest` returns it untyped. -/
structure ApiResponse (β : Type) where
  ok : Bool
  status : Nat
  statusText : String
  json : β
deriving Repr, DecidableEq

/-- The two error kinds a query operation can throw:
`authError` is `Authentication failed: <status> <statusText>` from
`authenticate`, `apiError` is `Reddit API error: <status> <statusText>`
from `makeRequest`. -/
inductive ReqError where
  | authError (status : Nat) (statusText : String)
  | apiError (status : Nat) (statusText : String)
deriving Repr, DecidableEq

/-- Models `RedditClient.makeRequest`: awaits `authenticate` first (an
authentication error propagates and the API host is never contacted), then
classifies the API response: non-ok throws `apiError` with the original
status and statusText, without reading the body; ok returns the parsed
body. Returns the session state after the call together with the result. -/
def makeRequest {β : Type} (cfg : Config) (st : ClientState) (now : Int)
    (tokResp : TokenResponse) (resp : ApiResponse β) :
    ClientState × Except ReqError β :=
  let a := authenticate cfg st now tokResp
  match a.error with
  | some e => (a.state, Except.error (ReqError.authError e.1 e.2))
  | none =>
    if resp.ok then (a.state, Except.ok resp.json)
    else (a.state, Except.error (ReqError.apiError resp.status resp.statusText))

/-- The raw post payload fields `mapPost` reads (`data.*` of a `t3` child).
`selftext` and `thumbnail` may be absent in the raw JSON. -/
structure RawPost where
  id : String
  title : String
  author : String
  subreddit : String
  url : String
  selftext : Option String
  created_utc : Int
  score : Int
  num_comments : Int
  permalink : String
  is_self : Bool
  domain : String
  thumbnail : Option String
deriving Repr, DecidableEq

/-- The `RedditPost` interface. -/
structure RedditPost where
  id : String
  title : String
  author : String
  subreddit : String
  url : String
  selftext : String
  created_utc : Int
  score : Int
  num_comments : Int
  permalink : String
  is_self : Bool
  domain : String
  thumbnail : Option String
deriving Repr, DecidableEq

/-- Models `RedditClient.mapPost`: `selftext` defaults to the empty string
(`data.selftext || ''`), `permalink` is absolutised against the fixed
origin, and `thumbnail` keeps the raw value unless it equals the sentinel
`"self"` or `"default"`, in which case the field is `undefined`. -/
def mapPost (d : RawPost) : RedditPost :=
  { id := d.id
    title := d.title
    author := d.author
    subreddit := d.subreddit
    url := d.url
    selftext := d.selftext.getD ""
    created_utc := d.created_utc
    score := d.score
    num_comments := d.num_comments
    permalink := "https://reddit.com" ++ d.permalink
    is_self := d.is_self
    domain := d.domain
    thumbnail :=
      if d.thumbnail ≠ some "self" && d.thumbnail ≠ some "default" then
        d.thumbnail
      else none }

/-- The raw comment payload fields `mapComment` reads (the scalar fields of
a `t1` child, without the nested `replies` structure). -/
structure RawCommentFields where
  id : String
  author : String
  body : String
  created_utc : Int
  score : Int
  permalink : String
  parent_id : String
  subreddit : String
deriving Repr, DecidableEq

/-- The `RedditComment` interface. -/
structure RedditComment where
  id : String
  author : String
  body : String
  created_utc : Int
  score : Int
  permalink : String
  parent_id : String
  subreddit : String
deriving Repr, DecidableEq

/-- Models `RedditClient.mapComment`: all fields pass through by name except
`permalink`, which is absolutised against the fixed origin. -/
def mapComment (d : RawCommentFields) : RedditComment :=
  { id := d.id
    author := d.author
    body := d.body
    created_utc := d.created_utc
    score := d.score
    permalink := "https://reddit.com" ++ d.permalink
    parent_id := d.parent_id
    subreddit := d.subreddit }

/-- The raw subreddit payload fields, including the `url` the remote payload
carries (which `mapSubreddit` never reads). -/
structure RawSubreddit where
  display_name : String
  title : String
  description : String
  subscribers : Int
  created_utc : Int
  public_description : String
  url : String
  over18 : Bool
deriving Repr, DecidableEq

/-- The `RedditSubreddit` interface. -/
structure RedditSubreddit where
  display_name : String
  title : String
  description : String
  subscribers : Int
  created_utc : Int
  public_description : String
  url : String
  over18 : Bool
deriving Repr, DecidableEq

/-- Models `RedditClient.mapSubreddit`: all fields pass through by name
except `url`, which is always synthesised as
`https://reddit.com/r/<display_name>`. -/
def mapSubreddit (d : RawSubreddit) : RedditSubreddit :=
  { display_name := d.display_name
    title := d.title
    description := d.description
    subscribers := d.subscribers
    created_utc := d.created_utc
    public_description := d.public_description
    url := "https://reddit.com/r/" ++ d.display_name
    over18 := d.over18 }

/-- A JavaScript runtime value in a position whose static type is a string
union: the `time` argument of `searchPosts` receives a string when called
as typed, but a number from the search_posts dispatch in src/index.ts. -/
inductive JsVal where
  | str (s : String)
  | num (n : Int)
  | undef
deriving Repr, DecidableEq

/-- JS truthiness of a `JsVal`: the empty string, `0` and `undefined` are
falsy. -/
def JsVal.truthy : JsVal → Bool
  | .str s => s ≠ ""
  | .num n => n ≠ 0
  | .undef => false

/-- String conversion applied by `URLSearchParams` to a parameter value. -/
def JsVal.render : JsVal → String
  | .str s => s
  | .num n => toString n
  | .undef => "undefined"

/-- The `URLSearchParams` built by `RedditClient.searchPosts`, as an ordered
list of key-value pairs: `q`, `sort`, `limit`, `type=link` always, then
`restrict_sr=true` when a subreddit is given, then `t` when `time` is
truthy. -/
def searchPostsParams (query : String) (subreddit : Option String)
    (sort : String) (time : JsVal) (limit : Int) : List (String × String) :=
  [("q", query), ("sort", sort), ("limit", toString limit), ("type", "link")]
    ++ (if isTruthyOpt subreddit then [("restrict_sr", "true")] else [])
    ++ (if time.truthy then [("t", time.render)] else [])

/-- Models the `case 'search_posts'` dispatch in src/index.ts: it calls
`searchPosts(args.query, args.subreddit, args.sort, args.limit)`, so the
validated `limit` argument is passed in the `time` position of
`searchPosts` and the `limit` parameter falls back to its default `25`. -/
def handleSearchPosts (query : String) (subreddit : Option String)
    (sort : String) (limit : Int) : List (String × String) :=
  searchPostsParams query subreddit sort (JsVal.num limit) 25

mutual
/-- One element of a `children` array in a comment thread response: a
`kind` tag (`"t1"` for comments, `"more"` for load-more placeholders, and
so on) and an optional `data` payload. -/
inductive RawCNode : Type where
  | mk (kind : String) (data : Option RawCData) : RawCNode

/-- The `data` payload of a thread child: the scalar comment fields plus
the optional nested `replies` structure (absent models any falsy value,
such as the empty string Reddit sends for childless comments). -/
inductive RawCData : Type where
  | mk (fields : RawCommentFields) (replies : Option RawReplies) : RawCData

/-- The `replies` value when truthy: a listing whose `data` may itself be
absent. -/
inductive RawReplies : Type where
  | mk (rdata : Option RawRepliesData) : RawReplies

/-- The `replies.data` value when truthy: it may or may not carry a
`children` array. -/
inductive RawRepliesData : Type where
  | mk (children : Option (List RawCNode)) : RawRepliesData
end

/-- Models `RedditClient.extractComments` (the output buffer is modelled by
returning the appended comments): for each child in order, a node whose
`kind` is `"t1"` and whose `data` is truthy contributes its mapped comment
followed, when `replies`, `replies.data` and `replies.data.children` are
all truthy, by the flattening of those children; every other node
contributes nothing and is not descended into. -/
def extractComments : List RawCNode → List RedditComment
  | [] => []
  | RawCNode.mk kind dat :: rest =>
    (match kind, dat with
     | "t1", some (RawCData.mk f replies) =>
       mapComment f ::
         (match replies with
          | some (RawReplies.mk (some (RawRepliesData.mk (some cs)))) =>
            extractComments cs
          | _ => [])
     | _, _ => [])
      ++ extractComments rest

/-- Builds a `t1` comment node whose `replies`, `replies.data` and
`replies.data.children` are all present, with the given children. -/
def t1Node (f : RawCommentFields) (cs : List RawCNode) : RawCNode :=
  RawCNode.mk "t1" (some (RawCData.mk f
    (some (RawReplies.mk (some (RawRepliesData.mk (some cs)))))))

/-- Builds a `t1` comment node with no `replies` structure at all. -/
def t1Leaf (f : RawCommentFields) : RawCNode :=
  RawCNode.mk "t1" (some (RawCData.mk f none))

/-- A sample configuration carrying every credential kind at once, used to
instantiate the universally quantified theorems below. -/
def sampleCfg : Config :=
  ⟨"cid", "csecret", "agent", some "user", some "pass", some "rtok", some "atok"⟩

/-- A session state with no cached token (the situation after startup when
no pre-supplied token was configured). -/
def staleState : ClientState := ⟨none, 0⟩

/-- A successful token-endpoint response with a one-hour lifetime. -/
def tokOk : TokenResponse := ⟨true, 200, "OK", "newtok", 3600⟩

/-- A rejected token-endpoint response. -/
def tokBad : TokenResponse := ⟨false, 401, "Unauthorized", "", 0⟩

/-- A failing content-service response. -/
def apiBad : ApiResponse Nat := ⟨false, 500, "Server Error", 0⟩

/-- A successful content-service response. -/
def apiOk : ApiResponse Nat := ⟨true, 200, "OK", 7⟩

/-- Sample comment field records for the flattening theorems. -/
def fldA : RawCommentFields := ⟨"a", "ua", "body a", 1, 10, "/pa", "t3_x", "s"⟩

/-- Sample comment field record B. -/
def fldB : RawCommentFields := ⟨"b", "ub", "body b", 2, 20, "/pb", "t1_a", "s"⟩

/-- Sample comment field record C. -/
def fldC : RawCommentFields := ⟨"c", "uc", "body c", 3, 30, "/pc", "t1_a", "s"⟩

/-- Sample comment field record D. -/
def fldD : RawCommentFields := ⟨"d", "ud", "body d", 4, 40, "/pd", "t1_b", "s"⟩

/-- When the cached token is not reusable, `authenticate` performs exactly
one token-endpoint call, whose form body is `authBody cfg`. -/
theorem authenticate_calls_of_stale (cfg : Config) (st : ClientState)
    (now : Int) (resp : TokenResponse) (h : tokenIsValid st now = false) :
    (authenticate cfg st now resp).tokenCalls = [authBody cfg] := by
  by_cases hok : resp.ok <;> simp [authenticate, h, hok]

/-- C1: the spec says a pre-supplied, not-yet-expired access token is
reused by the first `authenticate` with zero network calls. The code
initialises `tokenExpiry` to `0`, so for every configuration with a truthy
pre-supplied token and every nonnegative clock value the guard
`Date.now() < this.tokenExpiry` fails and `authenticate` performs one
token-endpoint exchange instead of reusing the token. -/
theorem presupplied_token_first_auth_exchanges (cfg : Config) (now : Int)
    (resp : TokenResponse) (_htok : isTruthyOpt cfg.accessToken = true)
    (hnow : 0 ≤ now) :
    (authenticate cfg (clientInit cfg) now resp).tokenCalls = [authBody cfg] := by
  apply authenticate_calls_of_stale
  have hlt : ¬ now < (clientInit cfg).tokenExpiry := by
    simp only [clientInit]
    omega
  simp [tokenIsValid, hlt]

/-- Witness: a concrete configuration with pre-supplied token `atok` still
triggers a token exchange at a realistic clock value. -/
theorem presupplied_token_first_auth_exchanges_witness :
    (authenticate sampleCfg (clientInit sampleCfg) 1700000000000 tokOk).tokenCalls
      = [[("grant_type", "refresh_token"), ("refresh_token", "rtok")]] :=
  presupplied_token_first_auth_exchanges sampleCfg 1700000000000 tokOk
    (by decide) (by decide)

/-- C2: the search_posts dispatch passes the validated `limit` argument in
the `time` position of `searchPosts`, so a call with limit `10` and no
time window issues a request with `limit=25` (the client default) and a
time-window parameter `t=10`, contradicting the claim that the request
carries `limit=10` and no `t`. -/
theorem search_posts_handler_limit_becomes_time :
    handleSearchPosts "rust" none "relevance" 10
      = [("q", "rust"), ("sort", "relevance"), ("limit", "25"),
         ("type", "link"), ("t", "10")] := by
  decide

/-- C3: whenever a token exchange happens, a truthy configured refresh
token forces exactly the refresh-token grant (even with username and
password also configured), and the client-credentials grant is used if and
only if neither a truthy refresh token nor a truthy username/password pair
is configured. -/
theorem refresh_token_grant_priority (cfg : Config) (st : ClientState)
    (now : Int) (resp : TokenResponse) (h : tokenIsValid st now = false) :
    (isTruthyOpt cfg.refreshToken = true →
      (authenticate cfg st now resp).tokenCalls
        = [[("grant_type", "refresh_token"),
            ("refresh_token", cfg.refreshToken.getD "")]])
    ∧ ((authenticate cfg st now resp).tokenCalls
          = [[("grant_type", "client_credentials")]]
        ↔ isTruthyOpt cfg.refreshToken = false
            ∧ (isTruthyOpt cfg.username && isTruthyOpt cfg.password) = false) := by
  rw [authenticate_calls_of_stale cfg st now resp h]
  constructor
  · intro hr
    simp [authBody, hr]
  · by_cases hr : isTruthyOpt cfg.refreshToken
    · simp [authBody, hr]
    · by_cases hup : isTruthyOpt cfg.username && isTruthyOpt cfg.password
      · simp [authBody, hr, hup]
      · simp [authBody, hr, hup]

/-- Witness: with refresh token, username and password all configured and
an empty session, the exchange uses the refresh-token grant. -/
theorem refresh_token_grant_priority_witness :
    (authenticate sampleCfg staleState 5 tokOk).tokenCalls
      = [[("grant_type", "refresh_token"), ("refresh_token", "rtok")]] :=
  (refresh_token_grant_priority sampleCfg staleState 5 tokOk (by decide)).1
    (by decide)

/-- C4: a successful exchange at time `now` (ms) reporting a lifetime of
`expires_in` seconds records `tokenExpiry = now + expires_in * 1000 - 60000`
(the instant sixty seconds before nominal expiry), and — provided the
returned token is a nonempty string — the cached token passes the reuse
guard at time `t` exactly when `t` is strictly before that instant. -/
theorem token_expiry_bookkeeping (cfg : Config) (st : ClientState)
    (now : Int) (resp : TokenResponse) (h : tokenIsValid st now = false)
    (hok : resp.ok = true) (htok : resp.access_token ≠ "") :
    (authenticate cfg st now resp).state.tokenExpiry
        = now + resp.expires_in * 1000 - 60000
    ∧ ∀ t : Int,
        (tokenIsValid (authenticate cfg st now resp).state t = true
          ↔ t < now + resp.expires_in * 1000 - 60000) := by
  constructor
  · simp [authenticate, h, hok]
  · intro t
    have ha : (authenticate cfg st now resp).state
        = { accessToken := some resp.access_token,
            tokenExpiry := now + resp.expires_in * 1000 - 60000 } := by
      simp [authenticate, h, hok]
    rw [ha]
    simp [tokenIsValid, isTruthyOpt, htok]

/-- Witness: an exchange at time 1000 with a 3600-second lifetime yields
expiry 3541000, and the token passes the guard at 3540999. -/
theorem token_expiry_bookkeeping_witness :
    (authenticate sampleCfg staleState 1000 tokOk).state.tokenExpiry
        = 1000 + 3600 * 1000 - 60000
    ∧ (tokenIsValid (authenticate sampleCfg staleState 1000 tokOk).state 3540999
          = true
        ↔ (3540999 : Int) < 1000 + 3600 * 1000 - 60000) :=
  ⟨(token_expiry_bookkeeping sampleCfg staleState 1000 tokOk
      (by decide) (by decide) (by decide)).1,
   (token_expiry_bookkeeping sampleCfg staleState 1000 tokOk
      (by decide) (by decide) (by decide)).2 3540999⟩

/-- C5: a token exchange answered with a non-ok response leaves the session
state exactly as it was, and the query operation that triggered it returns
the authentication error carrying the original status and statusText
instead of any entity. -/
theorem auth_failure_atomic (β : Type) (cfg : Config) (st : ClientState)
    (now : Int) (tokResp : TokenResponse) (resp : ApiResponse β)
    (h : tokenIsValid st now = false) (hbad : tokResp.ok = false) :
    (authenticate cfg st now tokResp).state = st
    ∧ makeRequest cfg st now tokResp resp
        = (st, Except.error (ReqError.authError tokResp.status tokResp.statusText)) := by
  have hb : tokResp.ok = false := hbad
  constructor
  · simp [authenticate, h, hb]
  · simp [makeRequest, authenticate, h, hb]

/-- Witness: a rejected exchange with status 401 leaves the empty session
unchanged and surfaces `authError 401 "Unauthorized"`. -/
theorem auth_failure_atomic_witness :
    (authenticate sampleCfg staleState 5 tokBad).state = staleState
    ∧ makeRequest sampleCfg staleState 5 tokBad apiOk
        = (staleState, Except.error (ReqError.authError 401 "Unauthorized")) :=
  auth_failure_atomic Nat sampleCfg staleState 5 tokBad apiOk
    (by decide) (by decide)

/-- C6: `extractComments` is a depth-first pre-order flattening: the
concrete tree A(B(D), C) flattens to exactly [A, B, D, C]; in general a
comment node is emitted immediately before the flattening of its children,
followed by the flattening of its later siblings, and a node whose kind is
not `"t1"` contributes nothing while the remaining siblings are processed
in order. -/
theorem extract_comments_pre_order (a b c d : RawCommentFields)
    (kind : String) (dat : Option RawCData) (f : RawCommentFields)
    (cs rest : List RawCNode) :
    extractComments [t1Node a [t1Node b [t1Leaf d], t1Leaf c]]
        = [mapComment a, mapComment b, mapComment d, mapComment c]
    ∧ extractComments (t1Node f cs :: rest)
        = mapComment f :: (extractComments cs ++ extractComments rest)
    ∧ (kind ≠ "t1" →
        extractComments (RawCNode.mk kind dat :: rest) = extractComments rest) := by
  refine ⟨?_, ?_, ?_⟩
  · simp [extractComments, t1Node, t1Leaf]
  · simp [extractComments, t1Node]
  · intro hk
    rw [extractComments]
    · simp
    · intro g r hkind hdat
      exact hk hkind

/-- Witness: the pre-order property instantiated at concrete comment
records, with a `"more"` placeholder as the skipped node. -/
theorem extract_comments_pre_order_witness :
    extractComments [t1Node fldA [t1Node fldB [t1Leaf fldD], t1Leaf fldC]]
        = [mapComment fldA, mapComment fldB, mapComment fldD, mapComment fldC]
    ∧ extractComments (RawCNode.mk "more" none :: [t1Leaf fldA])
        = extractComments [t1Leaf fldA] :=
  ⟨(extract_comments_pre_order fldA fldB fldC fldD "more" none fldA [] []).1,
   (extract_comments_pre_order fldA fldB fldC fldD "more" none fldA []
      [t1Leaf fldA]).2.2 (by decide)⟩

/-- C7: when authentication succeeds, a non-ok response from the API host
makes the query operation return `apiError` with the original numeric
status and textual reason and no entity; the result does not depend on the
response body, which holds for every body value of every type. -/
theorem api_error_surfaces (β : Type) (cfg : Config) (st : ClientState)
    (now : Int) (tokResp : TokenResponse) (resp : ApiResponse β)
    (hauth : (authenticate cfg st now tokResp).error = none)
    (hbad : resp.ok = false) :
    (makeRequest cfg st now tokResp resp).2
      = Except.error (ReqError.apiError resp.status resp.statusText) := by
  simp [makeRequest, hauth, hbad]

/-- Witness: a 500 response surfaces as `apiError 500 "Server Error"`. -/
theorem api_error_surfaces_witness :
    (makeRequest sampleCfg staleState 5 tokOk apiBad).2
      = Except.error (ReqError.apiError 500 "Server Error") :=
  api_error_surfaces Nat sampleCfg staleState 5 tokOk apiBad
    (by decide) (by decide)

/-- C8: for a raw post whose thumbnail is present, the mapped thumbnail is
absent exactly when the raw value is one of the sentinels `"self"` or
`"default"`, and otherwise equals the raw value. -/
theorem thumbnail_sentinel_normalisation (d : RawPost) (s : String)
    (h : d.thumbnail = some s) :
    ((mapPost d).thumbnail = none ↔ (s = "self" ∨ s = "default"))
    ∧ (s ≠ "self" → s ≠ "default" → (mapPost d).thumbnail = some s) := by
  constructor
  · by_cases hs : s = "self"
    · simp [mapPost, h, hs]
    · by_cases hd : s = "default"
      · simp [mapPost, h, hd]
      · simp [mapPost, h, hs, hd]
  · intro hs hd
    simp [mapPost, h, hs, hd]

/-- Witness: the raw thumbnail `http://x/y.jpg` survives mapping exactly. -/
theorem thumbnail_sentinel_normalisation_witness :
    (mapPost ⟨"i", "t", "au", "s", "u", some "st", 1, 2, 3, "/p", true, "d",
        some "http://x/y.jpg"⟩).thumbnail
      = some "http://x/y.jpg" :=
  (thumbnail_sentinel_normalisation
      ⟨"i", "t", "au", "s", "u", some "st", 1, 2, 3, "/p", true, "d",
        some "http://x/y.jpg"⟩
      "http://x/y.jpg" rfl).2 (by decide) (by decide)

/-- C9: the mapped subreddit url is always the fixed origin followed by
`/r/` and the payload's `display_name`, and replacing the url carried by
the raw payload changes nothing in the mapped entity. -/
theorem subreddit_url_synthesised (d : RawSubreddit) (u : String) :
    (mapSubreddit d).url = "https://reddit.com/r/" ++ d.display_name
    ∧ mapSubreddit { d with url := u } = mapSubreddit d := by
  constructor
  · rfl
  · rfl

/-- C10: a `t1` child whose `data` is absent contributes no comment, is not
descended into, raises no error (the flattener is total), and leaves the
processing of the remaining siblings unchanged. -/
theorem t1_without_data_skipped (rest : List RawCNode) :
    extractComments (RawCNode.mk "t1" none :: rest) = extractComments rest := by
  rw [extractComments]
  · simp
  · intro f r hk hd
    cases hd
